import Mathlib

/-!
Shallow embedding of `main.py` of the llamajump repository: a Flask reverse
proxy in front of a llama.cpp server, with a stream classifier
(`is_streaming_request`), a streaming forwarding path
(`proxy_streaming_response`) and a buffered forwarding path (`proxy`).

External library primitives (Flask request parsing, the `requests` HTTP
client, Python's `json` module) are modelled at their interfaces: a request
carries the *result* of the fallible JSON body parse as an `Option JsonVal`,
an upstream call is an `UpstreamOutcome` (either a raised exception or a
response head plus the chunk sequence its body iterator yields), and the
`requests` URL preparation (merging of `params` into a URL that already has a
query string) is reproduced from that library's documented behaviour.
-/

namespace Llamajump

/-- A parsed JSON value, the result Python's `json` loader hands to
`request.get_json()`.  Objects produced by a JSON parse have unique keys
(the parser keeps the last duplicate), so association-list lookup is
unambiguous. -/
inductive JsonVal where
  | null : JsonVal
  | bool (b : Bool) : JsonVal
  | num (n : Int) : JsonVal
  | str (s : String) : JsonVal
  | arr (xs : List JsonVal) : JsonVal
  | obj (kvs : List (String × JsonVal)) : JsonVal

/-- Python truthiness of a JSON value, as used by `data.get('stream', False)`
feeding the final `or` chain of `is_streaming_request`. -/
def JsonVal.truthy : JsonVal → Bool
  | .null => false
  | .bool b => b
  | .num n => n != 0
  | .str s => s != ""
  | .arr xs => !xs.isEmpty
  | .obj kvs => !kvs.isEmpty

/-! String primitives are given structurally recursive definitions over the
underlying character lists (rather than the byte-position-indexed library
versions), so that every definition in this file evaluates inside the
kernel on concrete inputs. -/

/-- ASCII lowercasing of a string (Python `str.lower` on the header and
parameter values at stake here). -/
def toLowerStr (s : String) : String :=
  ⟨s.data.map Char.toLower⟩

/-- Python's `str.strip` whitespace class. -/
def isSpaceChar (c : Char) : Bool :=
  c == ' ' || c == '\t' || c == '\n' || c == '\r' || c == '\x0b' || c == '\x0c'

/-- Python's `str.strip`: drop leading and trailing whitespace. -/
def trimStr (s : String) : String :=
  ⟨((s.data.dropWhile isSpaceChar).reverse.dropWhile isSpaceChar).reverse⟩

/-- The characters preceding the first occurrence of `c` (the whole list when
`c` is absent). -/
def takeUntilChar (c : Char) : List Char → List Char
  | [] => []
  | x :: t => if x == c then [] else x :: takeUntilChar c t

/-- Whether `needle` occurs as a contiguous run inside `hay`. -/
def listHasSubstr (needle : List Char) : List Char → Bool
  | [] => needle.isPrefixOf []
  | c :: t => needle.isPrefixOf (c :: t) || listHasSubstr needle t

/-- Python's `sub in s` substring test. -/
def substrIn (s sub : String) : Bool :=
  listHasSubstr sub.data s.data

/-- Werkzeug's `request.mimetype`: the content-type header value without its
parameters, trimmed and lowercased. -/
def mimetype (contentType : String) : String :=
  toLowerStr (trimStr ⟨takeUntilChar ';' contentType.data⟩)

/-- Werkzeug's `request.is_json` (line 34 guards on it): the mimetype is
`application/json` or an `application/*+json` type. -/
def is_json (contentType : String) : Bool :=
  let mt := mimetype contentType
  mt == "application/json" ||
    ("application/".data.isPrefixOf mt.data && "+json".data.isSuffixOf mt.data)

/-- The classifier's view of an inbound request: the `Accept` header value
(`''` when absent), the raw `stream` query parameter
(`request.args.get('stream', '')`), the `Content-Type` header value (`''`
when absent), and the result of the fallible JSON parse of the body
(`none` when the body is malformed or not JSON at all). -/
structure ClassifierInput where
  acceptHeader : String
  streamParam : String
  contentType : String
  parsedJson : Option JsonVal

/-- `is_streaming_request` (main.py lines 26-47): the body's `stream` field is
consulted only when `request.is_json` holds and the parse yields a dict; a
failed parse is swallowed by the bare `except` and leaves the flag `False`. -/
def is_streaming_request (rq : ClassifierInput) : Bool :=
  let accept_header := rq.acceptHeader
  let stream_param := toLowerStr rq.streamParam
  let is_stream_request : Bool :=
    if is_json rq.contentType then
      match rq.parsedJson with
      | some (JsonVal.obj kvs) =>
          JsonVal.truthy ((kvs.lookup "stream").getD (JsonVal.bool false))
      | _ => false
    else false
  substrIn accept_header "text/event-stream" ||
  substrIn accept_header "application/x-ndjson" ||
  (["true", "1", "yes"].contains stream_param) ||
  is_stream_request

/-- The classifier as C3 words it (no Content-Type condition on the body
signal): true iff the Accept header carries a streaming media type, the
`stream` query parameter is affirmative, or the body is valid JSON whose
top-level value is a mapping with a truthy `stream` key. -/
def spec_is_streaming (rq : ClassifierInput) : Bool :=
  substrIn rq.acceptHeader "text/event-stream" ||
  substrIn rq.acceptHeader "application/x-ndjson" ||
  (["true", "1", "yes"].contains (toLowerStr rq.streamParam)) ||
  (match rq.parsedJson with
   | some (JsonVal.obj kvs) =>
       JsonVal.truthy ((kvs.lookup "stream").getD (JsonVal.bool false))
   | _ => false)

/-! ## Forwarder: shared pieces -/

/-- An exception raised by a `requests` call, carrying `str(e)`.  The three
constructors mirror the `except` dispatch of `proxy` (lines 171-190):
`requests.exceptions.ConnectionError` first, then `requests.exceptions.Timeout`,
then any other `Exception`. -/
inductive ProxyExn where
  | connectionError (msg : String) : ProxyExn
  | timeout (msg : String) : ProxyExn
  | other (msg : String) : ProxyExn
deriving DecidableEq

/-- `str(e)` of a raised exception. -/
def ProxyExn.message : ProxyExn → String
  | .connectionError m => m
  | .timeout m => m
  | .other m => m

/-- Response headers stripped before relay on both paths
(main.py lines 97 and 159). -/
def excluded_headers : List String :=
  ["content-encoding", "content-length", "transfer-encoding", "connection"]

/-- Request headers never copied into the forwarding header set
(main.py line 137). -/
def hop_by_hop_request_headers : List String :=
  ["host", "connection", "transfer-encoding"]

/-- Python `d[k] = v` on an association-list rendering of a dict: overwrite in
place when the exact key is present, append otherwise. -/
def dictInsert (d : List (String × String)) (k v : String) :
    List (String × String) :=
  if d.any (fun kv => kv.1 == k) then
    d.map (fun kv => if kv.1 == k then (k, v) else kv)
  else d ++ [(k, v)]

/-- The forwarding header set (main.py lines 135-138): inbound headers copied
into a fresh dict, skipping those whose lowercased key is hop-by-hop. -/
def buildForwardHeaders (inbound : List (String × String)) :
    List (String × String) :=
  inbound.foldl
    (fun acc kv =>
      if hop_by_hop_request_headers.contains (toLowerStr kv.1) then acc
      else dictInsert acc kv.1 kv.2) []

/-- `target_url` construction (main.py lines 130-132): the configured base,
`/`, the captured path, and — when the raw query string is nonempty — `?`
followed by the query string verbatim. -/
def target_url (llama_server path query_string : String) : String :=
  llama_server ++ "/" ++ path ++
    (if query_string == "" then "" else "?" ++ query_string)

/-- `urllib.parse.urlencode` on the parsed query parameters, with
percent-encoding of reserved characters elided (every theorem below applies it
only to values made of unreserved characters, where the encoding is the
identity). -/
def urlencodeParams : List (String × String) → String
  | [] => ""
  | [kv] => kv.1 ++ "=" ++ kv.2
  | kv :: rest => kv.1 ++ "=" ++ kv.2 ++ "&" ++ urlencodeParams rest

/-- `requests.PreparedRequest.prepare_url` merging of the `params=` argument
(passed at main.py lines 57, 92 and 152 as `request.args`): when `params` is
nonempty its encoding is appended to the URL, after `&` if the URL already
carries a query string and after `?` otherwise. -/
def requests_prepare_url (url : String) (args : List (String × String)) :
    String :=
  if args.isEmpty then url
  else if url.data.contains '?' then url ++ "&" ++ urlencodeParams args
  else url ++ "?" ++ urlencodeParams args

/-- The URL an upstream call of `proxy` actually requests: the constructed
`target_url` with the re-encoded `request.args` merged in by the client. -/
def effective_upstream_url (llama_server path query_string : String)
    (args : List (String × String)) : String :=
  requests_prepare_url (target_url llama_server path query_string) args

/-! ## Forwarder: response model -/

/-- A response body as the caller sees it: raw relayed bytes, or the JSON
object `jsonify({'error': ..., 'message': ...})` produces. -/
inductive RespBody where
  | raw (s : String) : RespBody
  | errorJson (error message : String) : RespBody
deriving DecidableEq

/-- A buffered (fully materialized) response handed to the caller:
status, explicit header list, body. -/
structure BufferedResponse where
  status : Nat
  headers : List (String × String)
  body : RespBody
deriving DecidableEq

/-- The head plus body iterator of an upstream streaming response
(`requests` response with `stream=True`): status, reason phrase, headers,
the chunks `iter_content` yields in order, and — when the iterator raises
after those chunks — the exception. -/
structure UpstreamResp where
  status_code : Nat
  reason : String
  resp_headers : List (String × String)
  chunks : List String
  midStreamError : Option ProxyExn
deriving DecidableEq

/-- Outcome of the upstream call opened at main.py line 87: the call raises,
or returns a response head whose body will be iterated. -/
inductive StreamOutcome where
  | failure (e : ProxyExn) : StreamOutcome
  | success (r : UpstreamResp) : StreamOutcome

/-- What the caller receives on the streaming path: committed status and
headers, the mimetype passed to `Response`, the body chunks actually written,
and whether the stream was terminated by an exception escaping the generator
(connection aborted, nothing further written). -/
structure StreamingResult where
  status : Nat
  headers : List (String × String)
  mimetype_sent : String
  bodyChunks : List String
  aborted : Bool
deriving DecidableEq

/-- A caller-visible result of the streaming entry point: either a buffered
(error) response produced before streaming began, or a streamed response. -/
inductive ProxyResult where
  | buffered (resp : BufferedResponse) : ProxyResult
  | streamed (s : StreamingResult) : ProxyResult
deriving DecidableEq

/-- Case-insensitive `resp.headers.get` of the `requests` library
(`CaseInsensitiveDict`); `key` is given lowercased. -/
def ciGet (hs : List (String × String)) (key : String) : Option String :=
  (hs.find? (fun kv => toLowerStr kv.1 == key)).map Prod.snd

/-! ## Forwarder: streaming path -/

/-- `stream_generator` (main.py lines 106-109): iterate the upstream body and
yield every truthy (nonempty) chunk, in order.  It has no exception handler:
an exception raised by the iteration escapes the generator (modelled by the
`aborted` flag of the enclosing result). -/
def stream_generator (chunks : List String) : List String :=
  chunks.filter (fun chunk => chunk != "")

/-- The Python `repr` of the dict `{'error': e, 'message': m}` interpolated by
the f-strings of `generate` (assuming `e` and `m` carry no characters `repr`
would escape). -/
def sseErrorEvent (e m : String) : String :=
  "data: \x7b'error': '" ++ e ++ "', 'message': '" ++ m ++ "'\x7d\n\n"

/-- The inner closure `generate` (main.py lines 50-84), as the list of strings
it would yield.  It opens its own upstream call inside `try`: a
`ConnectionError` (at setup or mid-iteration) yields one `data:` event naming
the configured server, any other exception yields one `data:` streaming-error
event, a non-200 head is preceded by an `HTTP/1.1 <code> <reason>` marker
line, and nonempty chunks are relayed in order.  This closure is DEAD CODE:
`proxy_streaming_response` defines it but never calls it — the returned
`Response` wraps `stream_generator` over a second, separately issued upstream
call. -/
def generate (llama_server : String) : StreamOutcome → List String
  | .failure (.connectionError _) =>
      [sseErrorEvent "Connection error"
        ("Unable to connect to llama.cpp server at " ++ llama_server)]
  | .failure (.timeout m) => [sseErrorEvent "Streaming error" m]
  | .failure (.other m) => [sseErrorEvent "Streaming error" m]
  | .success r =>
      (if r.status_code != 200 then
        ["HTTP/1.1 " ++ toString r.status_code ++ " " ++ r.reason ++ "\n"]
       else []) ++
      r.chunks.filter (fun chunk => chunk != "") ++
      (match r.midStreamError with
       | some (.connectionError _) =>
           [sseErrorEvent "Connection error"
             ("Unable to connect to llama.cpp server at " ++ llama_server)]
       | some (.timeout m) => [sseErrorEvent "Streaming error" m]
       | some (.other m) => [sseErrorEvent "Streaming error" m]
       | none => [])

/-- `proxy_streaming_response` (main.py lines 49-123) as executed.  The
upstream call at line 87 either raises — the generic `except Exception` at
line 118 answers with a buffered `500` JSON body
`{'error': 'Streaming setup error', 'message': str(e)}` — or returns a head:
its headers are filtered of `excluded_headers`, `('Cache-Control','no-cache')`
and `('Connection','keep-alive')` are appended, and the body is streamed
through `stream_generator`; an iterator exception escapes uncaught
(`aborted`). -/
def proxy_streaming_response : StreamOutcome → ProxyResult
  | .failure e =>
      .buffered ⟨500, [], .errorJson "Streaming setup error" e.message⟩
  | .success r =>
      let response_headers :=
        (r.resp_headers.filter
          (fun kv => !excluded_headers.contains (toLowerStr kv.1))) ++
        [("Cache-Control", "no-cache"), ("Connection", "keep-alive")]
      .streamed
        { status := r.status_code
          headers := response_headers
          mimetype_sent := (ciGet r.resp_headers "content-type").getD "text/plain"
          bodyChunks := stream_generator r.chunks
          aborted := r.midStreamError.isSome }

/-! ## Forwarder: buffered path -/

/-- The head and fully read body of a buffered upstream response. -/
structure BufferedUpstreamResp where
  status_code : Nat
  resp_headers : List (String × String)
  content : String
deriving DecidableEq

/-- Outcome of the buffered upstream call at main.py line 147. -/
inductive BufferedOutcome where
  | failure (e : ProxyExn) : BufferedOutcome
  | success (r : BufferedUpstreamResp) : BufferedOutcome

/-- The buffered path of `proxy` (main.py lines 146-190): on success relay the
upstream status, its headers filtered of `excluded_headers`, and the full body
bytes; on `ConnectionError` answer `502`, on `Timeout` `504`, on any other
exception `500`, each with a `jsonify({'error': ..., 'message': ...})` body.
No failure is retried or swallowed: every outcome maps to exactly one
response. -/
def proxy_buffered (llama_server : String) : BufferedOutcome → BufferedResponse
  | .success r =>
      { status := r.status_code
        headers := r.resp_headers.filter
          (fun kv => !excluded_headers.contains (toLowerStr kv.1))
        body := .raw r.content }
  | .failure (.connectionError _) =>
      { status := 502, headers := []
        body := .errorJson "Connection error"
          ("Unable to connect to llama.cpp server at " ++ llama_server) }
  | .failure (.timeout _) =>
      { status := 504, headers := []
        body := .errorJson "Timeout error"
          "Request to llama.cpp server timed out" }
  | .failure (.other m) =>
      { status := 500, headers := [], body := .errorJson "Proxy error" m }

/-! ## Accessors over results -/

/-- The header list of a streamed result (empty for a buffered result). -/
def streamedHeaders : ProxyResult → List (String × String)
  | .streamed s => s.headers
  | .buffered _ => []

/-- The written body chunks of a streamed result. -/
def streamedChunks : ProxyResult → List String
  | .streamed s => s.bodyChunks
  | .buffered _ => []

/-- Whether a streamed result was cut off by an uncaught generator
exception. -/
def streamedAborted : ProxyResult → Bool
  | .streamed s => s.aborted
  | .buffered _ => false

/-- The values carried by all headers whose lowercased key equals `key`
(`key` given lowercased), in order of appearance. -/
def headerValues (hs : List (String × String)) (key : String) : List String :=
  (hs.filter (fun kv => toLowerStr kv.1 == key)).map Prod.snd

/-! ## Theorems -/

/-- C1: the claim says a streaming-mode connection failure before any chunk is
produced yields a single in-stream SSE error event rather than a distinct HTTP
error status.  The code does the opposite: the upstream call opened at line 87
raises before any response is committed, the generic `except Exception` at
line 118 answers with a distinct buffered HTTP 500 JSON response, and the
in-stream handler exists only in the never-invoked `generate` closure.  This
theorem evaluates the code at the failing input (a `ConnectionError` with
message `m` at streaming setup). -/
theorem C1_streaming_setup_connection_error_is_buffered_500 (m : String) :
    proxy_streaming_response (.failure (.connectionError m)) =
      .buffered ⟨500, [], .errorJson "Streaming setup error" m⟩ := rfl

/-- C2: the claim says a mid-stream exception after the first chunk is caught
and converted into a final `data: ...` error event in the still-open stream.
The code's live generator (`stream_generator`, lines 106-109) has no exception
handler, so the exception escapes and the stream is cut off with no error
event; only the dead closure `generate` (lines 78-84) would have appended the
event.  Evaluated at the failing input: chunk `"a"` relayed, then an exception
`"boom"`. -/
theorem C2_midstream_exception_aborts_without_error_event :
    streamedAborted (proxy_streaming_response
      (.success ⟨200, "OK", [("Content-Type", "text/event-stream")], ["a"],
        some (.other "boom")⟩)) = true ∧
    streamedChunks (proxy_streaming_response
      (.success ⟨200, "OK", [("Content-Type", "text/event-stream")], ["a"],
        some (.other "boom")⟩)) = ["a"] ∧
    (streamedChunks (proxy_streaming_response
      (.success ⟨200, "OK", [("Content-Type", "text/event-stream")], ["a"],
        some (.other "boom")⟩))).all (fun c => !substrIn c "data: ") = true ∧
    generate "http://localhost:9997"
      (.success ⟨200, "OK", [("Content-Type", "text/event-stream")], ["a"],
        some (.other "boom")⟩) =
      ["a", sseErrorEvent "Streaming error" "boom"] := by
  refine ⟨rfl, rfl, by decide, rfl⟩

/-- C3 counterexample: a request whose body is the valid JSON mapping
`{"stream": true}` but which carries no headers at all (in particular no
JSON `Content-Type`) makes the classifier as the claim words it return
`true`, while `is_streaming_request` returns `false` — the code consults the
body only when `request.is_json` holds. -/
theorem C3_counterexample :
    spec_is_streaming ⟨"", "", "", some (.obj [("stream", .bool true)])⟩ = true ∧
    is_streaming_request ⟨"", "", "", some (.obj [("stream", .bool true)])⟩ = false := by
  exact ⟨by decide, by decide⟩

/-- C3 amended: the classifier returns true iff the Accept header contains
`text/event-stream` or `application/x-ndjson`, the `stream` query parameter
case-insensitively equals `true`, `1` or `yes`, or the request declares a JSON
content type AND its body parses to a mapping with a truthy `stream` key. -/
theorem C3_classifier_characterization (rq : ClassifierInput) :
    is_streaming_request rq =
      (substrIn rq.acceptHeader "text/event-stream" ||
       substrIn rq.acceptHeader "application/x-ndjson" ||
       ["true", "1", "yes"].contains (toLowerStr rq.streamParam) ||
       (is_json rq.contentType &&
        (match rq.parsedJson with
         | some (JsonVal.obj kvs) =>
             JsonVal.truthy ((kvs.lookup "stream").getD (JsonVal.bool false))
         | _ => false))) := by
  rcases rq with ⟨a, sp, ct, pj⟩
  cases h : is_json ct <;> simp [is_streaming_request, h]

/-- C4: for a request whose body is malformed or not JSON (the fallible parse
yields nothing), the classifier ignores the body and reduces to the header and
query-parameter signals; being a total function it never raises. -/
theorem C4_malformed_body_falls_back (rq : ClassifierInput)
    (h : rq.parsedJson = none) :
    is_streaming_request rq =
      (substrIn rq.acceptHeader "text/event-stream" ||
       substrIn rq.acceptHeader "application/x-ndjson" ||
       ["true", "1", "yes"].contains (toLowerStr rq.streamParam)) := by
  rcases rq with ⟨a, sp, ct, pj⟩
  cases h
  cases hj : is_json ct <;> simp [is_streaming_request, hj]

/-- C4 witness: a malformed-body request with `Accept: text/event-stream` is
classified by the header signal alone. -/
theorem C4_malformed_body_falls_back_witness :
    is_streaming_request ⟨"text/event-stream", "", "application/json", none⟩ =
      (substrIn "text/event-stream" "text/event-stream" ||
       substrIn "text/event-stream" "application/x-ndjson" ||
       ["true", "1", "yes"].contains (toLowerStr "")) :=
  C4_malformed_body_falls_back
    ⟨"text/event-stream", "", "application/json", none⟩ rfl

/-- C5: the claim says a non-200 upstream status in streaming mode makes the
proxy prepend a status-line marker into the emitted body stream.  Only the
dead closure `generate` (lines 63-64) does that; the live `stream_generator`
relays body chunks only.  Evaluated at the failing input (upstream answers
404 with one body chunk): the delivered stream is exactly the chunk, with no
`HTTP/1.1` marker, while `generate` would have prepended one. -/
theorem C5_no_status_line_marker_in_live_stream :
    streamedChunks (proxy_streaming_response
      (.success ⟨404, "Not Found", [], ["chunk"], none⟩)) = ["chunk"] ∧
    (streamedChunks (proxy_streaming_response
      (.success ⟨404, "Not Found", [], ["chunk"], none⟩))).all
      (fun c => !("HTTP/1.1".data.isPrefixOf c.data)) = true ∧
    generate "http://localhost:9997"
      (.success ⟨404, "Not Found", [], ["chunk"], none⟩) =
      ["HTTP/1.1 404 Not Found\n", "chunk"] := by
  refine ⟨rfl, by decide, by decide⟩

/-- C7: on the buffered path every upstream failure maps to exactly one
caller-visible error response — `ConnectionError` to 502 naming the
unreachable target, `Timeout` to 504, anything else to 500 carrying the
failure description — each with an `{error, message}` JSON body; no outcome
is retried or swallowed. -/
theorem C7_buffered_error_mapping (server : String) (e : ProxyExn) :
    proxy_buffered server (.failure e) =
      match e with
      | .connectionError _ =>
          ⟨502, [], .errorJson "Connection error"
            ("Unable to connect to llama.cpp server at " ++ server)⟩
      | .timeout _ =>
          ⟨504, [], .errorJson "Timeout error"
            "Request to llama.cpp server timed out"⟩
      | .other m => ⟨500, [], .errorJson "Proxy error" m⟩ := by
  cases e <;> rfl

/-- C10: on the streaming path the relayed body is exactly the non-empty
chunks yielded by the upstream iterator, in order (a sublist of the read
sequence: nothing reordered or duplicated); empty chunks are dropped. -/
theorem C10_stream_relays_nonempty_chunks_in_order (r : UpstreamResp) :
    ∃ s, proxy_streaming_response (.success r) = .streamed s ∧
      s.bodyChunks = r.chunks.filter (fun chunk => chunk != "") ∧
      List.Sublist s.bodyChunks r.chunks := by
  refine ⟨_, rfl, rfl, ?_⟩
  exact List.filter_sublist _

/-- Refiltering a filtered list is the plain filter when the outer predicate
implies the inner one. -/
theorem filter_filter_of_imp {α : Type} (p q : α → Bool)
    (h : ∀ x, q x = true → p x = true) (l : List α) :
    (l.filter p).filter q = l.filter q := by
  induction l with
  | nil => rfl
  | cons x t ih =>
      cases hq : q x with
      | true =>
          have hp := h x hq
          simp [List.filter_cons, hp, hq, ih]
      | false =>
          cases hp : p x <;> simp [List.filter_cons, hp, hq, ih]

/-- Refiltering a filtered list is empty when the outer predicate excludes
the inner one. -/
theorem filter_filter_of_excl {α : Type} (p q : α → Bool)
    (h : ∀ x, q x = true → p x = false) (l : List α) :
    (l.filter p).filter q = [] := by
  induction l with
  | nil => rfl
  | cons x t ih =>
      cases hq : q x with
      | true =>
          have hp := h x hq
          simp [List.filter_cons, hp, hq, ih]
      | false =>
          cases hp : p x <;> simp [List.filter_cons, hp, hq, ih]

/-- The values of a header not in the strip list survive the response-header
filter unchanged. -/
theorem headerValues_filter_not_excluded (hs : List (String × String))
    (k : String) (hk : excluded_headers.contains k = false) :
    headerValues
      (hs.filter (fun kv => !excluded_headers.contains (toLowerStr kv.1))) k =
      headerValues hs k := by
  unfold headerValues
  rw [filter_filter_of_imp]
  intro kv hq
  have hkv : toLowerStr kv.1 = k := by simpa using hq
  rw [hkv, hk]
  rfl

/-- No header whose lowercased key is in the strip list survives the
response-header filter. -/
theorem headerValues_filter_excluded (hs : List (String × String))
    (k : String) (hk : excluded_headers.contains k = true) :
    headerValues
      (hs.filter (fun kv => !excluded_headers.contains (toLowerStr kv.1))) k =
      [] := by
  unfold headerValues
  rw [filter_filter_of_excl]
  · rfl
  · intro kv hq
    have hkv : toLowerStr kv.1 = k := by simpa using hq
    rw [hkv, hk]
    rfl

/-- `headerValues` distributes over header-list concatenation. -/
theorem headerValues_append (hs ts : List (String × String)) (k : String) :
    headerValues (hs ++ ts) k = headerValues hs k ++ headerValues ts k := by
  simp [headerValues, List.filter_append]

/-- C6 counterexample: the claim says `Cache-Control` is overridden to
`no-cache` regardless of the upstream's value, but an upstream
`Cache-Control: max-age=60` is not in the strip list and is relayed ahead of
the appended `no-cache`, so the delivered values are not just `no-cache`. -/
theorem C6_counterexample :
    headerValues
      (streamedHeaders (proxy_streaming_response
        (.success ⟨200, "OK", [("Cache-Control", "max-age=60")], [], none⟩)))
      "cache-control" ≠ ["no-cache"] := by decide

/-- C6 amended: the streaming response carries the upstream status and the
upstream headers filtered of the hop-by-hop/framing set, with
`Cache-Control: no-cache` and `Connection: keep-alive` appended.
`Connection` is thereby effectively overridden (its only delivered value is
`keep-alive`, since upstream `connection` headers are stripped), while
upstream `Cache-Control` values are NOT stripped: they are relayed ahead of
the appended `no-cache`. -/
theorem C6_streaming_status_and_headers (r : UpstreamResp) :
    ∃ s, proxy_streaming_response (.success r) = .streamed s ∧
      s.status = r.status_code ∧
      s.headers =
        r.resp_headers.filter
          (fun kv => !excluded_headers.contains (toLowerStr kv.1)) ++
        [("Cache-Control", "no-cache"), ("Connection", "keep-alive")] ∧
      headerValues s.headers "connection" = ["keep-alive"] ∧
      headerValues s.headers "cache-control" =
        headerValues r.resp_headers "cache-control" ++ ["no-cache"] := by
  refine ⟨_, rfl, rfl, rfl, ?_, ?_⟩
  · rw [headerValues_append,
      headerValues_filter_excluded r.resp_headers "connection" (by decide)]
    decide
  · rw [headerValues_append,
      headerValues_filter_not_excluded r.resp_headers "cache-control" (by decide)]
    congr 1

/-- Folding Python dict insertion over inbound headers with pairwise-distinct
keys never overwrites, so the forwarding header set is plain filtering of the
inbound list. -/
theorem buildForwardHeaders_foldl (l : List (String × String)) :
    ∀ acc : List (String × String),
      (acc.map Prod.fst ++ l.map Prod.fst).Nodup →
      List.foldl
        (fun acc kv =>
          if hop_by_hop_request_headers.contains (toLowerStr kv.1) then acc
          else dictInsert acc kv.1 kv.2) acc l =
      acc ++ l.filter
        (fun kv => !hop_by_hop_request_headers.contains (toLowerStr kv.1)) := by
  induction l with
  | nil => intro acc _; simp
  | cons kv t ih =>
      intro acc h
      rcases kv with ⟨k, v⟩
      have hsub : (acc.map Prod.fst ++ t.map Prod.fst).Nodup :=
        List.Nodup.sublist
          (List.Sublist.append_left
            (List.sublist_cons_self k (t.map Prod.fst)) (acc.map Prod.fst)) h
      rw [List.foldl_cons, List.filter_cons]
      by_cases hk : toLowerStr k ∈ hop_by_hop_request_headers
      · have hkc : hop_by_hop_request_headers.contains (toLowerStr k) = true :=
          List.elem_eq_true_of_mem hk
        rw [if_pos hkc, ih acc hsub, hkc]
        simp only [Bool.not_true]
        rw [if_neg Bool.false_ne_true]
      · have hkc : hop_by_hop_request_headers.contains (toLowerStr k) = false := by
          rw [Bool.eq_false_iff]
          intro hct
          exact hk (by simpa using hct)
        have hnc :
            ¬ (hop_by_hop_request_headers.contains (toLowerStr k) = true) := by
          rw [hkc]
          exact Bool.false_ne_true
        have hnotin : k ∉ acc.map Prod.fst := by
          rcases List.nodup_append.mp (by simpa using h) with ⟨_, _, hdisj⟩
          exact fun hmem => hdisj hmem (List.mem_cons_self k (t.map Prod.fst))
        have hany : (acc.any fun p => p.1 == k) = false := by
          rw [Bool.eq_false_iff]
          intro hct
          rcases List.any_eq_true.mp hct with ⟨x, hx, hxk⟩
          exact hnotin (List.mem_map.mpr ⟨x, hx, by simpa using hxk⟩)
        have hins : dictInsert acc k v = acc ++ [(k, v)] := by
          unfold dictInsert
          rw [hany]
          simp
        have hsub' :
            ((acc ++ [(k, v)]).map Prod.fst ++ t.map Prod.fst).Nodup := by
          simpa [List.append_assoc] using h
        rw [if_neg hnc, hins, ih (acc ++ [(k, v)]) hsub', hkc]
        simp only [Bool.not_false, if_true]
        rw [List.append_assoc]
        rfl

/-- C8: on a successful buffered round trip the proxy relays the upstream
status and full body byte-for-byte with `content-encoding`, `content-length`,
`transfer-encoding` and `connection` stripped from the relayed response
headers; and the forwarded request headers are the inbound headers (keys
unique per the HTTP header-mapping rule) with `host`, `connection` and
`transfer-encoding` removed. -/
theorem C8_buffered_relay (server : String) (r : BufferedUpstreamResp)
    (inbound : List (String × String))
    (hnodup : (inbound.map Prod.fst).Nodup) :
    proxy_buffered server (.success r) =
      { status := r.status_code
        headers := r.resp_headers.filter
          (fun kv => !excluded_headers.contains (toLowerStr kv.1))
        body := .raw r.content } ∧
    buildForwardHeaders inbound =
      inbound.filter
        (fun kv => !hop_by_hop_request_headers.contains (toLowerStr kv.1)) := by
  refine ⟨rfl, ?_⟩
  simpa [buildForwardHeaders] using
    buildForwardHeaders_foldl inbound [] (by simpa using hnodup)

/-- C8 witness: upstream `200` with body `"hello"`, header `X-Test: 1` and a
framing header; inbound headers `Host`, `Accept`, `Connection`. -/
theorem C8_buffered_relay_witness :
    proxy_buffered "http://localhost:9997"
      (.success ⟨200,
        [("X-Test", "1"), ("Content-Length", "5"), ("Connection", "close")],
        "hello"⟩) =
      { status := 200, headers := [("X-Test", "1")],
        body := .raw "hello" } ∧
    buildForwardHeaders
      [("Host", "example.com"), ("Accept", "*/*"), ("Connection", "keep-alive")] =
      [("Accept", "*/*")] := by
  have h := C8_buffered_relay "http://localhost:9997"
    ⟨200, [("X-Test", "1"), ("Content-Length", "5"), ("Connection", "close")],
      "hello"⟩
    [("Host", "example.com"), ("Accept", "*/*"), ("Connection", "keep-alive")]
    (by decide)
  exact ⟨h.1.trans (by decide), h.2.trans (by decide)⟩

/-- C9 counterexample: for the request path `v1/chat/completions` with query
string `a=1` (parsed parameters `[("a","1")]`), the URL the client actually
requests is not the claimed base-path-query join — the query string appears
twice, once verbatim and once re-encoded from the `params` argument. -/
theorem C9_counterexample :
    effective_upstream_url "http://localhost:9997" "v1/chat/completions" "a=1"
        [("a", "1")] ≠
      target_url "http://localhost:9997" "v1/chat/completions" "a=1" ∧
    effective_upstream_url "http://localhost:9997" "v1/chat/completions" "a=1"
        [("a", "1")] =
      "http://localhost:9997/v1/chat/completions?a=1&a=1" := by
  exact ⟨by decide, by decide⟩

/-- C9 amended: the constructed target URL joins the configured base, the
path suffix and the verbatim query string — but the parsed query parameters
are additionally handed to the HTTP client as `params`, which appends their
re-encoding after `&`, so a nonempty query string reaches the upstream twice
(once verbatim, once re-encoded) rather than exactly once. -/
theorem C9_query_string_sent_twice (server path qs : String)
    (args : List (String × String)) (hq : qs ≠ "") (ha : args ≠ []) :
    effective_upstream_url server path qs args =
      server ++ "/" ++ path ++ "?" ++ qs ++ "&" ++ urlencodeParams args := by
  have hqb : (qs == "") = false := by
    rw [Bool.eq_false_iff]
    intro h
    exact hq (by simpa using h)
  have htu : target_url server path qs = server ++ "/" ++ path ++ "?" ++ qs := by
    unfold target_url
    rw [hqb]
    simp [String.append_assoc]
  have hmem : '?' ∈ (target_url server path qs).data := by
    rw [htu, show server ++ "/" ++ path ++ "?" ++ qs =
      (server ++ "/" ++ path) ++ ("?" ++ qs) from by simp [String.append_assoc]]
    rw [String.data_append]
    refine List.mem_append_right _ ?_
    rw [String.data_append]
    exact List.mem_append_left _ (by decide)
  have hc : (target_url server path qs).data.contains '?' = true :=
    List.elem_eq_true_of_mem hmem
  have hne : args.isEmpty = false := by
    cases args with
    | nil => exact absurd rfl ha
    | cons x t => rfl
  unfold effective_upstream_url requests_prepare_url
  rw [hne, hc]
  simp [htu]

/-- C9 amended witness: a concrete request with query `a=1&b=2`. -/
theorem C9_query_string_sent_twice_witness :
    effective_upstream_url "http://localhost:9997" "v1/completions" "a=1&b=2"
        [("a", "1"), ("b", "2")] =
      "http://localhost:9997" ++ "/" ++ "v1/completions" ++ "?" ++ "a=1&b=2" ++
        "&" ++ urlencodeParams [("a", "1"), ("b", "2")] :=
  C9_query_string_sent_twice "http://localhost:9997" "v1/completions" "a=1&b=2"
    [("a", "1"), ("b", "2")] (by decide) (by decide)

end Llamajump
